import Mathlib

/-!
Verification of the `SubscribeSocialSentiment` streaming client
(`src/python/MessagesProxy/SubscribeSocialSentiment/client.py`).

The client is a single linear `main`:
  1. `creds = grpc.ssl_channel_credentials(open(PATH_TO_CERT_FILE, 'rb').read())`
  2. `channel = grpc.secure_channel(SERVER_ADDRESS, creds)`
  3. `stub = types_pb2_grpc.MessagesProxyStub(channel)`
  4. `candle_stream = stub.SubscribeSocialSentiment(empty_pb2.Empty())`
  5. `for candle in candle_stream: print(candle.id, candle.sentiment_avg)`

All external collaborators (the filesystem read, the gRPC credential
constructor, the channel and the server stream) are modelled as an oracle
environment `Env`; each oracle answer is the outcome of the corresponding
external call, faithful to the error taxonomy of the specification
(`FileError`, `CredentialFormatError`, `ConnectionError`, `StreamError`).
`run` replays `main` against such an environment, recording the observable
effects (file reads, network operations, console lines) and the process
exit status: an uncaught Python exception terminates the process with
status 1, a normal return from `main` with status 0.
-/

namespace SubscribeSocialSentiment

/-- `SERVER_ADDRESS = 'SERVER'` from the source. -/
def SERVER_ADDRESS : String := "SERVER"

/-- `PATH_TO_CERT_FILE = './cert.pem'` from the source. -/
def PATH_TO_CERT_FILE : String := "./cert.pem"

/-- The error taxonomy of the external collaborators, as named in the
specification: certificate file unreadable/missing, malformed certificate
bytes, handshake/resolution failure at channel opening, mid-stream failure. -/
inductive ClientError where
  | fileError
  | credentialFormatError
  | connectionError
  | streamError
deriving DecidableEq, Fintype

/-- A record received from the server stream.  The client only ever reads
`id` and `sentiment_avg`; `otherFields` stands for the remaining
schema-defined fields it never touches.  `id` and `sentiment_avg` are kept
as their printed (`str()`) renderings, since the client does nothing with
them but print them. -/
structure SentimentRecord where
  id : String
  sentiment_avg : String
  otherFields : List String
deriving DecidableEq

/-- The credential bundle returned by `grpc.ssl_channel_credentials`:
an opaque wrapper around the certificate bytes. -/
structure Credentials where
  certBytes : List Nat
deriving DecidableEq

/-- The channel returned by `grpc.secure_channel`, opaque to the client. -/
structure Channel where
  handle : Nat
deriving DecidableEq

/-- What iterating `candle_stream` yields: the records received in order,
then either a clean close (`endedWith = none`) or an error raised
mid-iteration. -/
structure StreamResult where
  records : List SentimentRecord
  endedWith : Option ClientError
deriving DecidableEq

/-- Oracle for the external calls `main` makes, in program order:
the result of `open(PATH_TO_CERT_FILE, 'rb').read()`, of
`grpc.ssl_channel_credentials(bytes)`, of
`grpc.secure_channel(address, creds)`, and of iterating
`stub.SubscribeSocialSentiment(Empty())`. -/
structure Env where
  certFileRead : Except ClientError (List Nat)
  sslChannelCredentials : List Nat → Except ClientError Credentials
  secureChannel : String → Credentials → Except ClientError Channel
  subscribeSocialSentiment : Channel → StreamResult

/-- Observable effects of one process run.  `fsWrite` and `envRead` never
occur in any run of this client; they are in the type so that their absence
is a statement about the program, not about the type. -/
inductive Effect where
  | fsRead (path : String)
  | fsWrite (path : String)
  | envRead (name : String)
  | net (op : String)
  | stdoutLine (line : String)
  | stderrMsg (e : ClientError)
deriving DecidableEq

/-- The outcome of one process run: the ordered effects and the exit code. -/
structure RunResult where
  effects : List Effect
  exitCode : Nat
deriving DecidableEq

/-- `print(candle.id, candle.sentiment_avg)`: Python's `print` joins its
arguments with a single space. -/
def formatRecord (r : SentimentRecord) : String :=
  r.id ++ " " ++ r.sentiment_avg

/-- Effects of the `for candle in candle_stream` loop body over the records
actually received: each iteration blocks on the network for the next record,
then prints one line. -/
def consumeEffects (recs : List SentimentRecord) : List Effect :=
  recs.flatMap fun r => [Effect.net "recv", Effect.stdoutLine (formatRecord r)]

/-- Replay of `main` against the oracle `env`.  `main` has no `try`/`except`:
any exception escapes, Python writes the error to stderr and the process
exits with status 1; if `main` returns, the process exits with status 0.
The clean close of the stream produces no effect of its own. -/
def run (env : Env) : RunResult :=
  match env.certFileRead with
  | .error e => ⟨[.fsRead PATH_TO_CERT_FILE, .stderrMsg e], 1⟩
  | .ok bytes =>
    match env.sslChannelCredentials bytes with
    | .error e => ⟨[.fsRead PATH_TO_CERT_FILE, .stderrMsg e], 1⟩
    | .ok creds =>
      match env.secureChannel SERVER_ADDRESS creds with
      | .error e =>
          ⟨[.fsRead PATH_TO_CERT_FILE, .net "openChannel", .stderrMsg e], 1⟩
      | .ok ch =>
        let s := env.subscribeSocialSentiment ch
        match s.endedWith with
        | none =>
            ⟨[.fsRead PATH_TO_CERT_FILE, .net "openChannel",
                .net "SubscribeSocialSentiment"] ++ consumeEffects s.records, 0⟩
        | some e =>
            ⟨[.fsRead PATH_TO_CERT_FILE, .net "openChannel",
                .net "SubscribeSocialSentiment"] ++ consumeEffects s.records
              ++ [.stderrMsg e], 1⟩

/-- Projection of an effect to a standard-output line. -/
def stdoutOf : Effect → Option String
  | .stdoutLine s => some s
  | _ => none

/-- The standard-output lines of a run, in order. -/
def stdoutLines (r : RunResult) : List String :=
  r.effects.filterMap stdoutOf

/-- Projection of an effect to a standard-error message. -/
def stderrOf : Effect → Option ClientError
  | .stderrMsg e => some e
  | _ => none

/-- The standard-error messages of a run, in order. -/
def stderrErrors (r : RunResult) : List ClientError :=
  r.effects.filterMap stderrOf

/-- The process-level states of the specification's state machine. -/
inductive State where
  | idle
  | credentialsLoaded
  | channelOpen
  | subscribed
  | consuming
  | completed
  | failed
deriving DecidableEq, Fintype

/-- Position of each state in the forward order
`Idle → CredentialsLoaded → ChannelOpen → Subscribed → Consuming →
 \x7bCompleted | Failed\x7d`. -/
def State.rank : State → Nat
  | .idle => 0
  | .credentialsLoaded => 1
  | .channelOpen => 2
  | .subscribed => 3
  | .consuming => 4
  | .completed => 5
  | .failed => 6

/-- The sequence of states a run of `main` passes through.
`loadCredentials` covers both the file read and the credential wrapping
(one source statement); its failure aborts before `CredentialsLoaded`. -/
def trace (env : Env) : List State :=
  match env.certFileRead with
  | .error _ => [.idle, .failed]
  | .ok bytes =>
    match env.sslChannelCredentials bytes with
    | .error _ => [.idle, .failed]
    | .ok creds =>
      match env.secureChannel SERVER_ADDRESS creds with
      | .error _ => [.idle, .credentialsLoaded, .failed]
      | .ok ch =>
        match (env.subscribeSocialSentiment ch).endedWith with
        | none =>
            [.idle, .credentialsLoaded, .channelOpen, .subscribed,
              .consuming, .completed]
        | some _ =>
            [.idle, .credentialsLoaded, .channelOpen, .subscribed,
              .consuming, .failed]

/-- The stream closed gracefully: every step of the linear control flow
succeeded and the iteration ended without an error. -/
def graceful (env : Env) : Prop :=
  ∃ bytes creds ch,
    env.certFileRead = .ok bytes ∧
    env.sslChannelCredentials bytes = .ok creds ∧
    env.secureChannel SERVER_ADDRESS creds = .ok ch ∧
    (env.subscribeSocialSentiment ch).endedWith = none

/-- The effects the specification allows the whole system: console output,
network traffic on the channel, and reading the certificate file — no other
file reads, no file writes, no environment-variable reads. -/
def allowedEffect : Effect → Bool
  | .fsRead p => p == PATH_TO_CERT_FILE
  | .fsWrite _ => false
  | .envRead _ => false
  | .net _ => true
  | .stdoutLine _ => true
  | .stderrMsg _ => true

/-- Two records agree on the only fields the client reads. -/
def agreeOnPrinted (r₁ r₂ : SentimentRecord) : Prop :=
  r₁.id = r₂.id ∧ r₁.sentiment_avg = r₂.sentiment_avg

/- Helper lemmas about the consume loop. -/

theorem stdout_consumeEffects (recs : List SentimentRecord) :
    (consumeEffects recs).filterMap stdoutOf = recs.map formatRecord := by
  induction recs with
  | nil => rfl
  | cons r rs ih =>
      simp only [consumeEffects, List.flatMap_cons, List.filterMap_append] at ih ⊢
      rw [ih]
      rfl

theorem stderr_consumeEffects (recs : List SentimentRecord) :
    (consumeEffects recs).filterMap stderrOf = [] := by
  induction recs with
  | nil => rfl
  | cons r rs ih =>
      simp only [consumeEffects, List.flatMap_cons, List.filterMap_append] at ih ⊢
      rw [ih]
      rfl

theorem mem_consumeEffects (recs : List SentimentRecord) (e : Effect)
    (h : e ∈ consumeEffects recs) :
    e = Effect.net "recv" ∨ ∃ r ∈ recs, e = Effect.stdoutLine (formatRecord r) := by
  simp only [consumeEffects, List.mem_flatMap, List.mem_cons,
    List.not_mem_nil, or_false] at h
  obtain ⟨r, hr, hcase⟩ := h
  rcases hcase with h1 | h1
  · exact Or.inl h1
  · exact Or.inr ⟨r, hr, h1⟩

theorem net_not_mem_consumeEffects (recs : List SentimentRecord) (op : String)
    (h : op ≠ "recv") : Effect.net op ∉ consumeEffects recs := by
  intro hmem
  rcases mem_consumeEffects recs _ hmem with h1 | ⟨r, _, h1⟩
  · exact h (Effect.net.inj h1)
  · exact Effect.noConfusion h1

theorem count_net_consumeEffects (recs : List SentimentRecord) (op : String)
    (h : op ≠ "recv") : (consumeEffects recs).count (Effect.net op) = 0 :=
  List.count_eq_zero.mpr (net_not_mem_consumeEffects recs op h)

theorem all_allowed_consumeEffects (recs : List SentimentRecord) :
    (consumeEffects recs).all allowedEffect = true := by
  rw [List.all_eq_true]
  intro e he
  rcases mem_consumeEffects recs e he with h1 | ⟨r, _, h1⟩ <;> subst h1 <;> rfl

theorem map_formatRecord_of_agree {l₁ l₂ : List SentimentRecord}
    (h : List.Forall₂ agreeOnPrinted l₁ l₂) :
    l₁.map formatRecord = l₂.map formatRecord := by
  induction h with
  | nil => rfl
  | cons hab _ ih =>
      simp only [List.map_cons, ih, List.cons.injEq, and_true]
      obtain ⟨hid, havg⟩ := hab
      simp [formatRecord, hid, havg]

theorem fsRead_not_mem_consumeEffects (recs : List SentimentRecord)
    (p : String) : Effect.fsRead p ∉ consumeEffects recs := by
  intro hmem
  rcases mem_consumeEffects recs _ hmem with h1 | ⟨r, _, h1⟩ <;>
    exact Effect.noConfusion h1

theorem count_fsRead_consumeEffects (recs : List SentimentRecord)
    (p : String) : (consumeEffects recs).count (Effect.fsRead p) = 0 :=
  List.count_eq_zero.mpr (fsRead_not_mem_consumeEffects recs p)

theorem stdoutLines_run_of_setup (env : Env) (bytes : List Nat)
    (creds : Credentials) (ch : Channel)
    (h1 : env.certFileRead = .ok bytes)
    (h2 : env.sslChannelCredentials bytes = .ok creds)
    (h3 : env.secureChannel SERVER_ADDRESS creds = .ok ch) :
    stdoutLines (run env) =
      (env.subscribeSocialSentiment ch).records.map formatRecord := by
  rcases hs : env.subscribeSocialSentiment ch with ⟨recs, ended⟩
  cases ended <;>
    simp [run, h1, h2, h3, hs, stdoutLines, List.filterMap_append,
      stdout_consumeEffects, stdoutOf]

/-- C1: a subscription yielding N records then closing cleanly makes
`consume` print exactly N lines, each `<id> <sentiment_avg>`, in the order
received; the clean close itself produces no output and the process exits
with status 0. -/
theorem consume_prints_all_records_on_clean_close
    (env : Env) (bytes : List Nat) (creds : Credentials) (ch : Channel)
    (recs : List SentimentRecord)
    (h1 : env.certFileRead = .ok bytes)
    (h2 : env.sslChannelCredentials bytes = .ok creds)
    (h3 : env.secureChannel SERVER_ADDRESS creds = .ok ch)
    (h4 : env.subscribeSocialSentiment ch = ⟨recs, none⟩) :
    stdoutLines (run env) = recs.map formatRecord ∧
    (stdoutLines (run env)).length = recs.length ∧
    stderrErrors (run env) = [] ∧
    (run env).exitCode = 0 := by
  have hrun : run env =
      ⟨[.fsRead PATH_TO_CERT_FILE, .net "openChannel",
          .net "SubscribeSocialSentiment"] ++ consumeEffects recs, 0⟩ := by
    simp [run, h1, h2, h3, h4]
  refine ⟨?_, ?_, ?_, ?_⟩ <;>
    simp [hrun, stdoutLines, stderrErrors, List.filterMap_append,
      stdout_consumeEffects, stderr_consumeEffects, stdoutOf, stderrOf]

/-- C2: a stream that fails mid-stream after emitting K records makes the
run print exactly those K lines, surface the `StreamError`, exit non-zero,
and attempt no reconnection or resubscription (the channel is opened once
and the subscribe RPC is issued once). -/
theorem stream_error_prints_prefix_and_fails
    (env : Env) (bytes : List Nat) (creds : Credentials) (ch : Channel)
    (recs : List SentimentRecord)
    (h1 : env.certFileRead = .ok bytes)
    (h2 : env.sslChannelCredentials bytes = .ok creds)
    (h3 : env.secureChannel SERVER_ADDRESS creds = .ok ch)
    (h4 : env.subscribeSocialSentiment ch =
      ⟨recs, some ClientError.streamError⟩) :
    stdoutLines (run env) = recs.map formatRecord ∧
    (stdoutLines (run env)).length = recs.length ∧
    stderrErrors (run env) = [ClientError.streamError] ∧
    (run env).exitCode ≠ 0 ∧
    (run env).effects.count (Effect.net "openChannel") = 1 ∧
    (run env).effects.count (Effect.net "SubscribeSocialSentiment") = 1 := by
  have hrun : run env =
      ⟨[.fsRead PATH_TO_CERT_FILE, .net "openChannel",
          .net "SubscribeSocialSentiment"] ++ consumeEffects recs
        ++ [.stderrMsg ClientError.streamError], 1⟩ := by
    simp [run, h1, h2, h3, h4]
  refine ⟨?_, ?_, ?_, ?_, ?_, ?_⟩ <;>
    simp [hrun, stdoutLines, stderrErrors, List.filterMap_append,
      stdout_consumeEffects, stderr_consumeEffects, stdoutOf, stderrOf,
      List.count_append, count_net_consumeEffects, List.count_cons,
      List.count_nil]

/-- C3: for every record received, the run prints the record's `id` and its
`sentiment_avg`, in that order, separated by one space, one line per record,
on standard output, and these lines are the whole standard output. -/
theorem each_record_prints_id_and_sentiment_avg
    (env : Env) (bytes : List Nat) (creds : Credentials) (ch : Channel)
    (h1 : env.certFileRead = .ok bytes)
    (h2 : env.sslChannelCredentials bytes = .ok creds)
    (h3 : env.secureChannel SERVER_ADDRESS creds = .ok ch) :
    stdoutLines (run env) =
      (env.subscribeSocialSentiment ch).records.map
        (fun r => r.id ++ " " ++ r.sentiment_avg) := by
  have h := stdoutLines_run_of_setup env bytes creds ch h1 h2 h3
  simpa [formatRecord] using h

/-- C4: with credentials loaded and the channel opening failing with
`ConnectionError`, the run surfaces that error, exits non-zero, issues no
RPC call (never reaches `Subscribed`), and prints nothing. -/
theorem connection_error_before_subscribe
    (env : Env) (bytes : List Nat) (creds : Credentials)
    (h1 : env.certFileRead = .ok bytes)
    (h2 : env.sslChannelCredentials bytes = .ok creds)
    (h3 : env.secureChannel SERVER_ADDRESS creds =
      .error ClientError.connectionError) :
    stderrErrors (run env) = [ClientError.connectionError] ∧
    (run env).exitCode ≠ 0 ∧
    Effect.net "SubscribeSocialSentiment" ∉ (run env).effects ∧
    State.subscribed ∉ trace env ∧
    stdoutLines (run env) = [] := by
  have hrun : run env =
      ⟨[.fsRead PATH_TO_CERT_FILE, .net "openChannel",
          .stderrMsg ClientError.connectionError], 1⟩ := by
    simp [run, h1, h2, h3]
  have htr : trace env = [.idle, .credentialsLoaded, .failed] := by
    simp [trace, h1, h2, h3]
  refine ⟨?_, ?_, ?_, ?_, ?_⟩ <;>
    simp [hrun, htr, stderrErrors, stdoutLines, stdoutOf, stderrOf]

/-- C5: when loading credentials fails — the certificate file read raises
`FileError`, or wrapping the bytes raises `CredentialFormatError` — the run
surfaces that error, exits non-zero, never attempts to open a channel
(never reaches `ChannelOpen`), and prints nothing. -/
theorem credential_failure_never_opens_channel
    (env : Env) (e : ClientError)
    (_he : e = ClientError.fileError ∨ e = ClientError.credentialFormatError)
    (h : env.certFileRead = .error e ∨
      ∃ bytes, env.certFileRead = .ok bytes ∧
        env.sslChannelCredentials bytes = .error e) :
    stderrErrors (run env) = [e] ∧
    (run env).exitCode ≠ 0 ∧
    Effect.net "openChannel" ∉ (run env).effects ∧
    State.channelOpen ∉ trace env ∧
    stdoutLines (run env) = [] := by
  have hrun : run env = ⟨[.fsRead PATH_TO_CERT_FILE, .stderrMsg e], 1⟩ := by
    rcases h with h | ⟨bytes, hb, hc⟩
    · simp [run, h]
    · simp [run, hb, hc]
  have htr : trace env = [.idle, .failed] := by
    rcases h with h | ⟨bytes, hb, hc⟩
    · simp [trace, h]
    · simp [trace, hb, hc]
  refine ⟨?_, ?_, ?_, ?_, ?_⟩ <;>
    simp [hrun, htr, stderrErrors, stdoutLines, stdoutOf, stderrOf]

/-- C6: the process exits with status 0 exactly when the stream closed
gracefully; otherwise it exits with status 1 with exactly one error message
on standard error; and there is no recovery or retry: the certificate is
read exactly once, the channel is opened at most once, and the subscribe
RPC is issued at most once. -/
theorem exit_zero_iff_graceful (env : Env) :
    ((run env).exitCode = 0 ↔ graceful env) ∧
    ((run env).exitCode = 0 ∨
      ((run env).exitCode = 1 ∧ (stderrErrors (run env)).length = 1)) ∧
    (run env).effects.count (Effect.net "openChannel") ≤ 1 ∧
    (run env).effects.count (Effect.net "SubscribeSocialSentiment") ≤ 1 ∧
    (run env).effects.count (Effect.fsRead PATH_TO_CERT_FILE) = 1 := by
  rcases h1 : env.certFileRead with e | bytes
  · refine ⟨⟨fun h0 => ?_, fun hg => ?_⟩, ?_, ?_, ?_, ?_⟩
    · simp [run, h1] at h0
    · obtain ⟨b, c, ch, hb, -⟩ := hg
      rw [h1] at hb
      exact Except.noConfusion hb
    all_goals
      simp [run, h1, stderrErrors, stderrOf, List.count_cons]
  · rcases h2 : env.sslChannelCredentials bytes with e | creds
    · refine ⟨⟨fun h0 => ?_, fun hg => ?_⟩, ?_, ?_, ?_, ?_⟩
      · simp [run, h1, h2] at h0
      · obtain ⟨b, c, ch, hb, hc, -⟩ := hg
        rw [h1] at hb
        cases Except.ok.inj hb
        rw [h2] at hc
        exact Except.noConfusion hc
      all_goals
        simp [run, h1, h2, stderrErrors, stderrOf, List.count_cons]
    · rcases h3 : env.secureChannel SERVER_ADDRESS creds with e | ch
      · refine ⟨⟨fun h0 => ?_, fun hg => ?_⟩, ?_, ?_, ?_, ?_⟩
        · simp [run, h1, h2, h3] at h0
        · obtain ⟨b, c, ch, hb, hc, hch, -⟩ := hg
          rw [h1] at hb
          cases Except.ok.inj hb
          rw [h2] at hc
          cases Except.ok.inj hc
          rw [h3] at hch
          exact Except.noConfusion hch
        all_goals
          simp [run, h1, h2, h3, stderrErrors, stderrOf, List.count_cons]
      · rcases h4 : (env.subscribeSocialSentiment ch).endedWith with _ | e
        · refine ⟨⟨fun _ => ⟨bytes, creds, ch, h1, h2, h3, h4⟩, fun _ => ?_⟩,
            Or.inl ?_, ?_, ?_, ?_⟩
          · simp [run, h1, h2, h3, h4]
          · simp [run, h1, h2, h3, h4]
          all_goals
            simp [run, h1, h2, h3, h4, List.count_append,
              count_net_consumeEffects, count_fsRead_consumeEffects,
              List.count_cons, List.count_nil]
        · refine ⟨⟨fun h0 => ?_, fun hg => ?_⟩, Or.inr ⟨?_, ?_⟩, ?_, ?_, ?_⟩
          · simp [run, h1, h2, h3, h4] at h0
          · obtain ⟨b, c, ch2, hb, hc, hch, hend⟩ := hg
            rw [h1] at hb
            cases Except.ok.inj hb
            rw [h2] at hc
            cases Except.ok.inj hc
            rw [h3] at hch
            cases Except.ok.inj hch
            rw [h4] at hend
            exact Option.noConfusion hend
          · simp [run, h1, h2, h3, h4]
          · simp [run, h1, h2, h3, h4, stderrErrors, stderrOf,
              List.filterMap_append, stderr_consumeEffects]
          all_goals
            simp [run, h1, h2, h3, h4, List.count_append,
              count_net_consumeEffects, count_fsRead_consumeEffects,
              List.count_cons, List.count_nil]

/-- C7: every run follows the state machine
`Idle → CredentialsLoaded → ChannelOpen → Subscribed → Consuming →
 \x7bCompleted | Failed\x7d`: it starts at `Idle`, its state sequence is
strictly forward in the state order (so it never returns to an earlier
state), each state occurs at most once, and the last state reached is
`Completed` or `Failed`. -/
theorem state_machine_forward_terminal (env : Env) :
    (trace env).head? = some State.idle ∧
    (trace env).Pairwise (fun a b => a.rank < b.rank) ∧
    (∀ s : State, (trace env).count s ≤ 1) ∧
    ((trace env).getLast? = some State.completed ∨
      (trace env).getLast? = some State.failed) := by
  rcases h1 : env.certFileRead with e | bytes
  · simp only [trace, h1]
    decide
  · rcases h2 : env.sslChannelCredentials bytes with e | creds
    · simp only [trace, h1, h2]
      decide
    · rcases h3 : env.secureChannel SERVER_ADDRESS creds with e | ch
      · simp only [trace, h1, h2, h3]
        decide
      · rcases h4 : (env.subscribeSocialSentiment ch).endedWith with _ | e <;>
          · simp only [trace, h1, h2, h3, h4]
            decide

/-- C8: two runs against the same finite stream — both reach the
subscription and the server yields the same record sequence, then closes —
produce identical console output (same standard-output lines and same
standard-error messages); the output is a function of the streamed
records only. -/
theorem same_stream_same_output
    (env₁ env₂ : Env) (b₁ b₂ : List Nat) (c₁ c₂ : Credentials)
    (ch₁ ch₂ : Channel) (s : StreamResult)
    (hclose : s.endedWith = none)
    (h11 : env₁.certFileRead = .ok b₁)
    (h12 : env₁.sslChannelCredentials b₁ = .ok c₁)
    (h13 : env₁.secureChannel SERVER_ADDRESS c₁ = .ok ch₁)
    (h14 : env₁.subscribeSocialSentiment ch₁ = s)
    (h21 : env₂.certFileRead = .ok b₂)
    (h22 : env₂.sslChannelCredentials b₂ = .ok c₂)
    (h23 : env₂.secureChannel SERVER_ADDRESS c₂ = .ok ch₂)
    (h24 : env₂.subscribeSocialSentiment ch₂ = s) :
    stdoutLines (run env₁) = stdoutLines (run env₂) ∧
    stderrErrors (run env₁) = stderrErrors (run env₂) := by
  rcases s with ⟨recs, ended⟩
  cases hclose
  constructor <;>
    simp [run, h11, h12, h13, h14, h21, h22, h23, h24, stdoutLines,
      stderrErrors, List.filterMap_append, stdout_consumeEffects,
      stderr_consumeEffects, stdoutOf, stderrOf]

/-- C9: the observable effects of every run are confined to console output,
network traffic on the channel, and reading the certificate file: no other
file is read, no file is written, and no environment variable is read, on
any execution path. -/
theorem console_and_cert_only_effects (env : Env) :
    (run env).effects.all allowedEffect = true := by
  rcases h1 : env.certFileRead with e | bytes
  · simp [run, h1, allowedEffect]
  · rcases h2 : env.sslChannelCredentials bytes with e | creds
    · simp [run, h1, h2, allowedEffect]
    · rcases h3 : env.secureChannel SERVER_ADDRESS creds with e | ch
      · simp [run, h1, h2, h3, allowedEffect]
      · rcases h4 : (env.subscribeSocialSentiment ch).endedWith with _ | e <;>
          simp [run, h1, h2, h3, h4, List.all_append,
            all_allowed_consumeEffects, allowedEffect]

/-- C10: the printed output depends only on each record's `id` and
`sentiment_avg`: two successful runs whose streams agree pairwise on those
two fields (all other record fields arbitrary) produce identical standard
output. -/
theorem output_depends_only_on_id_and_sentiment
    (env₁ env₂ : Env) (b₁ b₂ : List Nat) (c₁ c₂ : Credentials)
    (ch₁ ch₂ : Channel)
    (h11 : env₁.certFileRead = .ok b₁)
    (h12 : env₁.sslChannelCredentials b₁ = .ok c₁)
    (h13 : env₁.secureChannel SERVER_ADDRESS c₁ = .ok ch₁)
    (h21 : env₂.certFileRead = .ok b₂)
    (h22 : env₂.sslChannelCredentials b₂ = .ok c₂)
    (h23 : env₂.secureChannel SERVER_ADDRESS c₂ = .ok ch₂)
    (hagree : List.Forall₂ agreeOnPrinted
      (env₁.subscribeSocialSentiment ch₁).records
      (env₂.subscribeSocialSentiment ch₂).records) :
    stdoutLines (run env₁) = stdoutLines (run env₂) := by
  rw [stdoutLines_run_of_setup env₁ b₁ c₁ ch₁ h11 h12 h13,
    stdoutLines_run_of_setup env₂ b₂ c₂ ch₂ h21 h22 h23]
  exact map_formatRecord_of_agree hagree

/- Concrete environments realising the specification's example scenario:
the server streams `AAPL 0.42` then `MSFT -0.15`. -/

def recA : SentimentRecord := ⟨"AAPL", "0.42", []⟩

def recB : SentimentRecord := ⟨"MSFT", "-0.15", ["extra"]⟩

def envClean : Env where
  certFileRead := .ok [48, 49]
  sslChannelCredentials := fun b => .ok ⟨b⟩
  secureChannel := fun _ _ => .ok ⟨0⟩
  subscribeSocialSentiment := fun _ => ⟨[recA, recB], none⟩

def envCleanOtherCert : Env where
  certFileRead := .ok [50]
  sslChannelCredentials := fun b => .ok ⟨b⟩
  secureChannel := fun _ _ => .ok ⟨1⟩
  subscribeSocialSentiment := fun _ => ⟨[recA, recB], none⟩

def envOtherFields : Env where
  certFileRead := .ok [51]
  sslChannelCredentials := fun b => .ok ⟨b⟩
  secureChannel := fun _ _ => .ok ⟨2⟩
  subscribeSocialSentiment := fun _ =>
    ⟨[⟨"AAPL", "0.42", ["ignored"]⟩, ⟨"MSFT", "-0.15", []⟩], some ClientError.streamError⟩

def envStreamErr : Env where
  certFileRead := .ok [48, 49]
  sslChannelCredentials := fun b => .ok ⟨b⟩
  secureChannel := fun _ _ => .ok ⟨0⟩
  subscribeSocialSentiment := fun _ => ⟨[recA], some ClientError.streamError⟩

def envConnErr : Env where
  certFileRead := .ok [48, 49]
  sslChannelCredentials := fun b => .ok ⟨b⟩
  secureChannel := fun _ _ => .error ClientError.connectionError
  subscribeSocialSentiment := fun _ => ⟨[], none⟩

def envNoFile : Env where
  certFileRead := .error ClientError.fileError
  sslChannelCredentials := fun b => .ok ⟨b⟩
  secureChannel := fun _ _ => .ok ⟨0⟩
  subscribeSocialSentiment := fun _ => ⟨[], none⟩

/-- Witness for C1 on the example scenario. -/
theorem consume_prints_all_records_on_clean_close_witness :
    stdoutLines (run envClean) = [recA, recB].map formatRecord ∧
    (stdoutLines (run envClean)).length =
      ([recA, recB] : List SentimentRecord).length ∧
    stderrErrors (run envClean) = [] ∧
    (run envClean).exitCode = 0 :=
  consume_prints_all_records_on_clean_close envClean [48, 49] ⟨[48, 49]⟩ ⟨0⟩
    [recA, recB] rfl rfl rfl rfl

/-- Witness for C2: the stream fails after one record. -/
theorem stream_error_prints_prefix_and_fails_witness :
    stdoutLines (run envStreamErr) = [recA].map formatRecord ∧
    (stdoutLines (run envStreamErr)).length =
      ([recA] : List SentimentRecord).length ∧
    stderrErrors (run envStreamErr) = [ClientError.streamError] ∧
    (run envStreamErr).exitCode ≠ 0 ∧
    (run envStreamErr).effects.count (Effect.net "openChannel") = 1 ∧
    (run envStreamErr).effects.count (Effect.net "SubscribeSocialSentiment") = 1 :=
  stream_error_prints_prefix_and_fails envStreamErr [48, 49] ⟨[48, 49]⟩ ⟨0⟩
    [recA] rfl rfl rfl rfl

/-- Witness for C3 on the example scenario. -/
theorem each_record_prints_id_and_sentiment_avg_witness :
    stdoutLines (run envClean) =
      (envClean.subscribeSocialSentiment ⟨0⟩).records.map
        (fun r => r.id ++ " " ++ r.sentiment_avg) :=
  each_record_prints_id_and_sentiment_avg envClean [48, 49] ⟨[48, 49]⟩ ⟨0⟩
    rfl rfl rfl

/-- Witness for C4: the channel opening fails. -/
theorem connection_error_before_subscribe_witness :
    stderrErrors (run envConnErr) = [ClientError.connectionError] ∧
    (run envConnErr).exitCode ≠ 0 ∧
    Effect.net "SubscribeSocialSentiment" ∉ (run envConnErr).effects ∧
    State.subscribed ∉ trace envConnErr ∧
    stdoutLines (run envConnErr) = [] :=
  connection_error_before_subscribe envConnErr [48, 49] ⟨[48, 49]⟩
    rfl rfl rfl

/-- Witness for C5: the certificate file is missing. -/
theorem credential_failure_never_opens_channel_witness :
    stderrErrors (run envNoFile) = [ClientError.fileError] ∧
    (run envNoFile).exitCode ≠ 0 ∧
    Effect.net "openChannel" ∉ (run envNoFile).effects ∧
    State.channelOpen ∉ trace envNoFile ∧
    stdoutLines (run envNoFile) = [] :=
  credential_failure_never_opens_channel envNoFile ClientError.fileError
    (Or.inl rfl) (Or.inl rfl)

/-- Witness for C8: two processes with different certificates and channels
but the same finite stream. -/
theorem same_stream_same_output_witness :
    stdoutLines (run envClean) = stdoutLines (run envCleanOtherCert) ∧
    stderrErrors (run envClean) = stderrErrors (run envCleanOtherCert) :=
  same_stream_same_output envClean envCleanOtherCert [48, 49] [50]
    ⟨[48, 49]⟩ ⟨[50]⟩ ⟨0⟩ ⟨1⟩ ⟨[recA, recB], none⟩ rfl
    rfl rfl rfl rfl rfl rfl rfl rfl

/-- Witness for C10: the two streams agree on `id` and `sentiment_avg`
but differ in the other fields and in how they end. -/
theorem output_depends_only_on_id_and_sentiment_witness :
    stdoutLines (run envClean) = stdoutLines (run envOtherFields) :=
  output_depends_only_on_id_and_sentiment envClean envOtherFields
    [48, 49] [51] ⟨[48, 49]⟩ ⟨[51]⟩ ⟨0⟩ ⟨2⟩ rfl rfl rfl rfl rfl rfl
    (List.Forall₂.cons ⟨rfl, rfl⟩ (List.Forall₂.cons ⟨rfl, rfl⟩
      List.Forall₂.nil))

end SubscribeSocialSentiment
